import Mathlib

/-!
Verification development for the conversation pipeline of the AI communication app.

Shallow embedding of the relevant parts of the repository:
* `src/ai_communication_app/llm_client.py` — `ConversationManager`
  (`add_message`, `get_context`, `_summarize_and_trim`, `clear_history`),
  `OllamaClient` (`generate_response`, `_stream_request`,
  `get_conversation_history`), `LLMManager.process_speech_input`;
* `src/ai_communication_app/s2s_engine.py` — `SeamlessM4TEngine.speech_to_text`
  and `SeamlessM4TEngine.text_to_speech`;
* `src/ai_communication_app/ui.py` — `ConversationUI._async_process_audio`
  (the composed per-turn pipeline);
* `services/whisper/main.py` — `_clean_segments` and the `/transcribe`
  empty-transcript branch of the transcribe endpoint.

External collaborators (the Ollama HTTP backend, the SeamlessM4T model, the
audio player) are modelled as explicit outcome parameters: an `Except`/record
value describing what the remote call did (returned a value, or raised).
Mutable object state is passed explicitly; `datetime.now()` results are opaque
string parameters.
-/

namespace AICommApp

/-- A conversation message as stored in
`ConversationManager.conversation_history`: a dict with keys `role`,
`content`, `timestamp` (llm_client.py lines 28-32). -/
structure Message where
  role : String
  content : String
  timestamp : String
deriving DecidableEq

/-- Python `s.strip()`: remove leading and trailing whitespace. Embedded on
the character list so that it evaluates by kernel reduction. -/
def pyStrip (s : String) : String :=
  List.asString
    (((s.toList.dropWhile Char.isWhitespace).reverse.dropWhile Char.isWhitespace).reverse)

/-- Python slice `s[:n]` on a string: the first `n` characters. -/
def pyTake (n : Nat) (s : String) : String :=
  List.asString (s.toList.take n)

/-- Python slice `h[-k:]` on a list: the last `k` elements, except that
`h[-0:]` is the whole list. -/
def pyTakeLast (k : Nat) (h : List α) : List α :=
  if k = 0 then h else h.drop (h.length - k)

/-- Python slice `h[:-k]` on a list: everything but the last `k` elements,
except that `h[:-0]` is the empty list. -/
def pyDropLast (k : Nat) (h : List α) : List α :=
  if k = 0 then [] else h.take (h.length - k)

/-- The fixed system prompt of `ConversationManager.__init__`
(llm_client.py lines 19-24). -/
def system_prompt : String :=
  "You are a helpful AI assistant for English conversation practice. " ++
  "Respond naturally and engagingly in English. Keep responses concise " ++
  "but meaningful for conversation flow. Focus on helping the user " ++
  "practice English speaking skills."

/-- One line of the trim summary: role, colon, the first 100 characters of the content, then three dots and a newline
(llm_client.py line 64). -/
def summary_line (m : Message) : String :=
  m.role ++ ": " ++ pyTake 100 m.content ++ "...\n"

/-- The summary string built by `_summarize_and_trim` (llm_client.py
lines 62-64): the header `"Previous conversation summary:\n"` followed by one
newline-terminated line per old message. -/
def summary_content (old : List Message) : String :=
  old.foldl (fun acc m => acc ++ summary_line m) "Previous conversation summary:\n"

/-- `ConversationManager._summarize_and_trim` (llm_client.py lines 52-71).
`tsTrim` is the `datetime.now().isoformat()` taken for the summary message. -/
def summarize_and_trim (max_rounds : Nat) (tsTrim : String) (h : List Message) :
    List Message :=
  if h.length ≤ max_rounds * 2 then h
  else
    let recent := pyTakeLast max_rounds h
    let old := pyDropLast max_rounds h
    Message.mk "assistant" (summary_content old) tsTrim :: recent

/-- `ConversationManager.add_message` (llm_client.py lines 26-37): append the
message unconditionally, then trim when the history exceeds `max_rounds * 2`.
`ts` is the timestamp of the appended message, `tsTrim` the (later) timestamp
a triggered trim would stamp on the summary message. -/
def add_message (max_rounds : Nat) (role content ts tsTrim : String)
    (h : List Message) : List Message :=
  let h' := h ++ [Message.mk role content ts]
  if max_rounds * 2 < h'.length then summarize_and_trim max_rounds tsTrim h' else h'

/-- A `{role, content}` dict as produced by `get_context`. -/
structure CtxMessage where
  role : String
  content : String
deriving DecidableEq

/-- `ConversationManager.get_context` (llm_client.py lines 39-50): the fixed
system message followed by the `role`/`content` projections of the last
`max_rounds * 2` stored messages. Read-only: the source builds a fresh list
and never assigns to `conversation_history`. -/
def get_context (max_rounds : Nat) (h : List Message) : List CtxMessage :=
  CtxMessage.mk "system" system_prompt ::
    (pyTakeLast (max_rounds * 2) h).map (fun m => CtxMessage.mk m.role m.content)

/-- `ConversationManager.clear_history` (llm_client.py lines 73-76). -/
def clear_history (_h : List Message) : List Message := []

/-- One call against a `ConversationManager`: an `add_message` (with its two
timestamps) or a `clear_history`. -/
inductive ConvOp where
  | add (role content ts tsTrim : String)
  | clear
deriving DecidableEq

/-- Apply one `ConvOp` to a history. -/
def ConvOp.apply (max_rounds : Nat) (op : ConvOp) (h : List Message) :
    List Message :=
  match op with
  | .add role content ts tsTrim => add_message max_rounds role content ts tsTrim h
  | .clear => clear_history h

/-- Run a sequence of calls starting from the empty history
(`ConversationManager.__init__` sets `conversation_history = []`). -/
def run_ops (max_rounds : Nat) (ops : List ConvOp) : List Message :=
  ops.foldl (fun h op => op.apply max_rounds h) []

/-- Helper: length of the list produced by a triggered trim. -/
lemma summarize_and_trim_length (max_rounds : Nat) (hm : 1 ≤ max_rounds)
    (tsTrim : String) (h : List Message) (hlen : max_rounds * 2 < h.length) :
    (summarize_and_trim max_rounds tsTrim h).length = max_rounds + 1 := by
  unfold summarize_and_trim
  rw [if_neg (by omega)]
  have hk : max_rounds ≠ 0 := by omega
  simp only [List.length_cons, pyTakeLast, if_neg hk, List.length_drop]
  omega

/-- Helper: every `ConvOp` keeps the length below the bound (any `add_message`
call lands below the bound whatever the starting length was, because the trim
fires exactly when the bound is exceeded). -/
lemma convOp_apply_length_le (max_rounds : Nat) (hm : 1 ≤ max_rounds)
    (op : ConvOp) (h : List Message) (_hh : h.length ≤ max_rounds * 2) :
    (op.apply max_rounds h).length ≤ max_rounds * 2 := by
  cases op with
  | add role content ts tsTrim =>
      simp only [ConvOp.apply]
      unfold add_message
      by_cases hc : max_rounds * 2 < (h ++ [Message.mk role content ts]).length
      · rw [if_pos hc, summarize_and_trim_length max_rounds hm _ _ hc]
        omega
      · rw [if_neg hc]
        simp only [List.length_append, List.length_cons, List.length_nil] at hc ⊢
        omega
  | clear => simp [ConvOp.apply, clear_history]

/-- Helper: the bound is preserved along any suffix of calls. -/
lemma run_from_length_le (max_rounds : Nat) (hm : 1 ≤ max_rounds)
    (ops : List ConvOp) :
    ∀ h : List Message, h.length ≤ max_rounds * 2 →
      (ops.foldl (fun h op => op.apply max_rounds h) h).length ≤ max_rounds * 2 := by
  induction ops with
  | nil => intro h hh; simpa using hh
  | cons op rest ih =>
      intro h hh
      simp only [List.foldl_cons]
      exact ih _ (convOp_apply_length_le max_rounds hm op h hh)

/-- C1: for every `max_rounds ≥ 1` and every sequence of `add_message` and
`clear_history` calls starting from the empty history, after each call the
conversation history has length at most `2 * max_rounds`. (Each prefix of a
call sequence is itself a call sequence, so bounding `run_ops` on all
sequences bounds the state after every call.) -/
theorem conversation_history_bounded (max_rounds : Nat) (hm : 1 ≤ max_rounds)
    (ops : List ConvOp) :
    (run_ops max_rounds ops).length ≤ 2 * max_rounds := by
  have := run_from_length_le max_rounds hm ops [] (by simp)
  unfold run_ops
  omega

/-- Witness for C1 at `max_rounds = 2` and a concrete five-call sequence. -/
theorem conversation_history_bounded_witness :
    (run_ops 2 [ConvOp.add "user" "a" "t1" "s1", ConvOp.add "assistant" "b" "t2" "s2",
      ConvOp.add "user" "c" "t3" "s3", ConvOp.add "assistant" "d" "t4" "s4",
      ConvOp.add "user" "e" "t5" "s5"]).length ≤ 2 * 2 :=
  conversation_history_bounded 2 (by decide) _

/-- Modelled from the words of the spec, for comparison with the
`summary_content` (refinement check for the trim summary): per removed old
turn the line `"{role}: {first 100 chars of content}..."`, joined by newlines,
with no header line. -/
def claimed_summary_content (old : List Message) : String :=
  String.intercalate "\n" (old.map (fun m => m.role ++ ": " ++ pyTake 100 m.content ++ "..."))

/-- A concrete three-call sequence at `max_rounds = 1`: the third append
triggers the trim. -/
def trim_example_ops : List ConvOp :=
  [ConvOp.add "user" "aaa" "t1" "s1", ConvOp.add "assistant" "bbb" "t2" "s2",
   ConvOp.add "user" "ccc" "t3" "s3"]

/-- C2 counterexample: at `max_rounds = 1`, after three appends the summary
summary message content is the header line `"Previous conversation summary:"`
followed by newline-terminated per-turn lines — not the bare newline-join of
the per-turn lines that the claim describes. -/
theorem trim_summary_string_counterexample :
    (run_ops 1 trim_example_ops).head?.map Message.content =
      some "Previous conversation summary:\nuser: aaa...\nassistant: bbb...\n" ∧
    claimed_summary_content
        [Message.mk "user" "aaa" "t1", Message.mk "assistant" "bbb" "t2"] =
      "user: aaa...\nassistant: bbb..." ∧
    (run_ops 1 trim_example_ops).head?.map Message.content ≠
      some (claimed_summary_content
        [Message.mk "user" "aaa" "t1", Message.mk "assistant" "bbb" "t2"]) := by
  refine ⟨by decide, by decide, by decide⟩

/-- The C2 scenario: `max_rounds = 2`, twelve appends (six user/assistant
pairs). -/
def twelve_turn_ops : List ConvOp :=
  [ConvOp.add "user" "u1" "t1" "s1", ConvOp.add "assistant" "a1" "t2" "s2",
   ConvOp.add "user" "u2" "t3" "s3", ConvOp.add "assistant" "a2" "t4" "s4",
   ConvOp.add "user" "u3" "t5" "s5", ConvOp.add "assistant" "a3" "t6" "s6",
   ConvOp.add "user" "u4" "t7" "s7", ConvOp.add "assistant" "a4" "t8" "s8",
   ConvOp.add "user" "u5" "t9" "s9", ConvOp.add "assistant" "a5" "t10" "s10",
   ConvOp.add "user" "u6" "t11" "s11", ConvOp.add "assistant" "a6" "t12" "s12"]

/-- C2 amended: an append trims exactly when it leaves the history longer than
`max_rounds * 2`; the trim replaces the history with a single assistant
summary message followed by exactly the last `max_rounds` messages, where the
summary is `summary_content` from the code — the header
`"Previous conversation summary:\n"` followed by one newline-terminated
`"{role}: {first 100 chars}..."` line per removed message. With
`max_rounds = 2`, appending 12 turns leaves at most 5 messages whose first is
an assistant summary message. -/
theorem add_message_trim_characterization :
    (∀ (max_rounds : Nat) (role content ts tsTrim : String) (h : List Message),
      1 ≤ max_rounds →
      (max_rounds * 2 < h.length + 1 →
        add_message max_rounds role content ts tsTrim h =
          Message.mk "assistant"
              (summary_content (pyDropLast max_rounds (h ++ [Message.mk role content ts])))
              tsTrim ::
            (h ++ [Message.mk role content ts]).drop (h.length + 1 - max_rounds) ∧
        ((h ++ [Message.mk role content ts]).drop (h.length + 1 - max_rounds)).length =
          max_rounds) ∧
      (h.length + 1 ≤ max_rounds * 2 →
        add_message max_rounds role content ts tsTrim h =
          h ++ [Message.mk role content ts])) ∧
    ((run_ops 2 twelve_turn_ops).length ≤ 5 ∧
      (run_ops 2 twelve_turn_ops).head?.map Message.role = some "assistant") := by
  constructor
  · intro max_rounds role content ts tsTrim h hm
    constructor
    · intro hlong
      have hlen : (h ++ [Message.mk role content ts]).length = h.length + 1 := by simp
      have hcond : max_rounds * 2 < (h ++ [Message.mk role content ts]).length := by omega
      constructor
      · unfold add_message
        rw [if_pos hcond]
        unfold summarize_and_trim
        rw [if_neg (by omega)]
        unfold pyTakeLast
        rw [if_neg (by omega), hlen]
      · simp only [List.length_drop, hlen]
        omega
    · intro hshort
      unfold add_message
      rw [if_neg (by simp; omega)]
  · exact ⟨by decide, by decide⟩

/-- Witness for the general part of the amended C2 theorem at `max_rounds = 1`
and a concrete two-message history. -/
theorem add_message_trim_characterization_witness :
    add_message 1 "user" "ccc" "t3" "s3"
        [Message.mk "user" "aaa" "t1", Message.mk "assistant" "bbb" "t2"] =
      Message.mk "assistant"
          (summary_content (pyDropLast 1
            ([Message.mk "user" "aaa" "t1", Message.mk "assistant" "bbb" "t2"] ++
              [Message.mk "user" "ccc" "t3"])))
          "s3" ::
        ([Message.mk "user" "aaa" "t1", Message.mk "assistant" "bbb" "t2"] ++
          [Message.mk "user" "ccc" "t3"]).drop 2 :=
  ((add_message_trim_characterization.1 1 "user" "ccc" "t3" "s3"
    [Message.mk "user" "aaa" "t1", Message.mk "assistant" "bbb" "t2"]
    (by decide)).1 (by decide)).1

/-- C6 counterexample: `add_message` with whitespace-only content is not a
no-op — it appends the message (llm_client.py lines 26-33 have no emptiness
check). -/
theorem add_message_empty_content_counterexample :
    pyStrip " " = "" ∧
    add_message 5 "user" " " "t0" "s0" [] = [Message.mk "user" " " "t0"] ∧
    add_message 5 "user" " " "t0" "s0" [] ≠ [] := by
  refine ⟨by decide, by decide, by decide⟩

/-- C6 amended: `add_message` appends unconditionally — even when the content
is empty after stripping whitespace, the new message ends up as the last
element, and the resulting length is exactly what it is for any other
content (trim included). -/
theorem add_message_appends_unconditionally
    (max_rounds : Nat) (role content ts tsTrim : String) (h : List Message)
    (_hc : pyStrip content = "") (hm : 1 ≤ max_rounds) :
    ∃ front,
      add_message max_rounds role content ts tsTrim h =
        front ++ [Message.mk role content ts] ∧
      (add_message max_rounds role content ts tsTrim h).length =
        (if max_rounds * 2 < h.length + 1 then max_rounds + 1 else h.length + 1) := by
  have hlen : (h ++ [Message.mk role content ts]).length = h.length + 1 := by simp
  by_cases hcond : max_rounds * 2 < h.length + 1
  · have hcond' : max_rounds * 2 < (h ++ [Message.mk role content ts]).length := by omega
    refine ⟨Message.mk "assistant"
        (summary_content (pyDropLast max_rounds (h ++ [Message.mk role content ts])))
        tsTrim :: h.drop (h.length + 1 - max_rounds), ?_, ?_⟩
    · unfold add_message
      rw [if_pos hcond']
      unfold summarize_and_trim
      rw [if_neg (by omega)]
      unfold pyTakeLast
      rw [if_neg (by omega), hlen, List.cons_append]
      rw [List.drop_append_eq_append_drop,
        show h.length + 1 - max_rounds - h.length = 0 from by omega, List.drop_zero]
    · unfold add_message
      rw [if_pos hcond', summarize_and_trim_length max_rounds hm _ _ hcond',
        if_pos hcond]
  · refine ⟨h, ?_, ?_⟩
    · unfold add_message
      rw [if_neg (by omega)]
    · unfold add_message
      rw [if_neg (by omega), if_neg hcond, hlen]

/-- Witness for the amended C6 theorem at a concrete whitespace-only content. -/
theorem add_message_appends_unconditionally_witness :
    ∃ front,
      add_message 5 "user" "  " "t0" "s0" [] =
        front ++ [Message.mk "user" "  " "t0"] ∧
      (add_message 5 "user" "  " "t0" "s0" []).length =
        (if 5 * 2 < List.length ([] : List Message) + 1 then 5 + 1
         else List.length ([] : List Message) + 1) :=
  add_message_appends_unconditionally 5 "user" "  " "t0" "s0" []
    (by decide) (by decide)

/-- C8: `get_context` returns the fixed system message first, followed by the
`role`/`content` projections of the most recent at most `max_rounds * 2`
stored messages in their stored (oldest-first) order; the source builds a
fresh list and never writes to `conversation_history`, which the embedding
reflects by typing `get_context` as a read-only function of the history. -/
theorem get_context_window (max_rounds : Nat) (hm : 1 ≤ max_rounds)
    (h : List Message) :
    (get_context max_rounds h).head? = some (CtxMessage.mk "system" system_prompt) ∧
    (get_context max_rounds h).tail =
      (h.drop (h.length - max_rounds * 2)).map
        (fun m => CtxMessage.mk m.role m.content) ∧
    (get_context max_rounds h).tail.length ≤ max_rounds * 2 := by
  refine ⟨rfl, ?_, ?_⟩
  · unfold get_context pyTakeLast
    rw [if_neg (by omega)]
    simp only [List.tail_cons]
  · unfold get_context pyTakeLast
    rw [if_neg (by omega)]
    simp only [List.tail_cons, List.length_map, List.length_drop]
    omega

/-- Witness for C8 at `max_rounds = 1` and a three-message history. -/
theorem get_context_window_witness :
    (get_context 1 [Message.mk "user" "a" "t1", Message.mk "assistant" "b" "t2",
        Message.mk "user" "c" "t3"]).head? =
      some (CtxMessage.mk "system" system_prompt) ∧
    (get_context 1 [Message.mk "user" "a" "t1", Message.mk "assistant" "b" "t2",
        Message.mk "user" "c" "t3"]).tail =
      ([Message.mk "user" "a" "t1", Message.mk "assistant" "b" "t2",
        Message.mk "user" "c" "t3"].drop
          (List.length [Message.mk "user" "a" "t1", Message.mk "assistant" "b" "t2",
            Message.mk "user" "c" "t3"] - 1 * 2)).map
        (fun m => CtxMessage.mk m.role m.content) ∧
    (get_context 1 [Message.mk "user" "a" "t1", Message.mk "assistant" "b" "t2",
        Message.mk "user" "c" "t3"]).tail.length ≤ 1 * 2 :=
  get_context_window 1 (by decide) _

/-- The fallback text yielded by `OllamaClient.generate_response` when the
streaming request raised (llm_client.py line 120). -/
def fallback_reply : String :=
  "I\x27m sorry, I\x27m having trouble responding right now. Please try again."

/-- The canned clarification yielded by `LLMManager.process_speech_input` for
empty input (llm_client.py line 243). -/
def canned_clarification : String :=
  "I didn\x27t catch that. Could you please repeat?"

/-- What the Ollama streaming call did, seen from `_stream_request`:
`streamed` is the concatenation of the content chunks that arrived (and were
yielded) before the stream finished or failed; `failed` records whether the
request or the stream raised. -/
structure StreamOutcome where
  streamed : String
  failed : Bool
deriving DecidableEq

/-- `OllamaClient._stream_request` (llm_client.py lines 122-170): on success
the streamed text, if nonempty after stripping, is appended to the
conversation as an assistant message (lines 160-163); on a request failure
the exception is logged and re-raised (lines 165-170) with no assistant
message appended. First component `none` means the call raised; the second
component is the text yielded to the caller either way. -/
def stream_request (max_rounds : Nat) (tsA tsATrim : String)
    (outcome : StreamOutcome) (h : List Message) :
    Option (List Message) × String :=
  if outcome.failed then (none, outcome.streamed)
  else if pyStrip outcome.streamed = "" then (some h, outcome.streamed)
  else
    (some (add_message max_rounds "assistant" (pyStrip outcome.streamed) tsA tsATrim h),
      outcome.streamed)

/-- Observable result of one `generate_response` / `process_speech_input`
call: the conversation history afterwards, the full text yielded to the
caller, and whether the streaming backend was invoked at all. -/
structure GenResult where
  history : List Message
  yielded : String
  backendCalled : Bool
deriving DecidableEq

/-- `OllamaClient.generate_response` (llm_client.py lines 93-120): append the
user message, then stream; every exception is caught and turns into the
yielded `fallback_reply` (after whatever chunks already arrived), so the call
itself never raises. -/
def generate_response (max_rounds : Nat) (user_input tsU tsUTrim tsA tsATrim : String)
    (outcome : StreamOutcome) (h : List Message) : GenResult :=
  let h1 := add_message max_rounds "user" user_input tsU tsUTrim h
  match stream_request max_rounds tsA tsATrim outcome h1 with
  | (none, streamed) => GenResult.mk h1 (streamed ++ fallback_reply) true
  | (some h2, streamed) => GenResult.mk h2 streamed true

/-- `LLMManager.process_speech_input` (llm_client.py lines 240-253): empty
input after stripping yields the canned clarification without calling the
LLM client; otherwise it delegates to `generate_response` (whose own handler
already catches every exception, so the outer handler of lines 251-253 is
unreachable). -/
def process_speech_input (max_rounds : Nat) (user_text tsU tsUTrim tsA tsATrim : String)
    (outcome : StreamOutcome) (h : List Message) : GenResult :=
  if pyStrip user_text = "" then GenResult.mk h canned_clarification false
  else generate_response max_rounds user_text tsU tsUTrim tsA tsATrim outcome h

/-- `SeamlessM4TEngine.speech_to_text` (s2s_engine.py lines 112-144). The ASR
backend call (temp-file handling plus `_run_asr`) is a parameter:
`Except.error ()` means it raised, `Except.ok t` that it returned a dict
whose optional `text` entry is `t`. Uninitialized engines raise; otherwise
every backend exception is caught and the empty string returned. -/
def speech_to_text (initialized : Bool) (asr : Except Unit (Option String)) :
    Except String String :=
  if initialized = false then Except.error "SeamlessM4T engine not initialized"
  else
    match asr with
    | Except.ok t => Except.ok (pyStrip (t.getD ""))
    | Except.error _ => Except.ok ""

/-- `SeamlessM4TEngine.text_to_speech` (s2s_engine.py lines 160-200).
The TTS backend call is a parameter: `Except.error ()` means it raised,
`Except.ok none` that the result dict had no `wav` entry, `Except.ok (some b)`
that a wav chunk `b` was produced (byte-level wav encoding kept opaque).
Uninitialized engines raise; empty text yields no chunks; every backend
exception is caught and yields no chunks. -/
def text_to_speech (initialized : Bool) (text : String)
    (tts : Except Unit (Option (List Nat))) : Except String (List (List Nat)) :=
  if initialized = false then Except.error "SeamlessM4T engine not initialized"
  else if pyStrip text = "" then Except.ok []
  else
    match tts with
    | Except.error _ => Except.ok []
    | Except.ok none => Except.ok []
    | Except.ok (some wav) => Except.ok [wav]

/-- An entry of `st.session_state.conversation_log` in ui.py. -/
structure Entry where
  role : String
  content : String
  timestamp : String
deriving DecidableEq

/-- The mutable state touched by one UI turn: the session conversation log of
ui.py and the `ConversationManager` history inside the `OllamaClient`. -/
structure UIState where
  conversation_log : List Entry
  conversation_history : List Message
deriving DecidableEq

/-- Observable outcome of one `_async_process_audio` call: the state
afterwards, the audio chunks handed to `play_response`, the assistant reply
appended this turn (if any), whether the LLM backend was invoked, and whether
an exception escaped the call (the outer handler of ui.py lines 300-301
catches everything, so this is false on every path). -/
structure TurnOutcome where
  final : UIState
  played : List (List Nat)
  reply : Option String
  responderCalled : Bool
  raised : Bool
deriving DecidableEq

/-- `ConversationUI._async_process_audio` (ui.py lines 258-301), the composed
per-turn pipeline: transcribe (via `S2SManager.transcribe_audio`, which
delegates to `speech_to_text`), short-circuit on an empty transcript, append
the user entry, generate via `process_speech_input`, append the assistant
entry when the reply is nonempty, synthesize (via `synthesize_speech`, which
delegates to `text_to_speech`) and play. Collaborator behaviour is passed as
the `asr`/`llm`/`tts` outcome parameters; the timestamps are the opaque
results of the clock calls on this path. -/
def async_process_audio (max_rounds : Nat) (s2s_initialized : Bool)
    (asr : Except Unit (Option String)) (llm : StreamOutcome)
    (tts : Except Unit (Option (List Nat)))
    (tsEntryU tsEntryA tsU tsUTrim tsA tsATrim : String)
    (st : UIState) : TurnOutcome :=
  match speech_to_text s2s_initialized asr with
  | Except.error _ => TurnOutcome.mk st [] none false false
  | Except.ok user_text =>
    if pyStrip user_text = "" then TurnOutcome.mk st [] none false false
    else
      let log1 := st.conversation_log ++ [Entry.mk "user" user_text tsEntryU]
      let gen := process_speech_input max_rounds user_text tsU tsUTrim tsA tsATrim llm
        st.conversation_history
      if pyStrip gen.yielded = "" then
        TurnOutcome.mk (UIState.mk log1 gen.history) [] none gen.backendCalled false
      else
        let log2 := log1 ++ [Entry.mk "assistant" (pyStrip gen.yielded) tsEntryA]
        match text_to_speech s2s_initialized gen.yielded tts with
        | Except.error _ =>
            TurnOutcome.mk (UIState.mk log2 gen.history) [] (some (pyStrip gen.yielded))
              gen.backendCalled false
        | Except.ok chunks =>
            TurnOutcome.mk (UIState.mk log2 gen.history) chunks (some (pyStrip gen.yielded))
              gen.backendCalled false

/-- The canned message of the whisper transcribe endpoint for an empty
transcript (services/whisper/main.py line 175). -/
def no_speech_message : String := "音声が検出されませんでした。もう一度お試しください。"

/-- Helper for `_clean_segments`: walk the segment texts carrying the last
kept text. -/
def clean_segments_aux : List String → Option String → List String
  | [], _ => []
  | s :: rest, last =>
      let txt := pyStrip s
      if txt ≠ "" ∧ some txt ≠ last then txt :: clean_segments_aux rest (some txt)
      else clean_segments_aux rest last

/-- `_clean_segments` (services/whisper/main.py lines 87-95): strip each
segment text, drop empty ones and immediate repeats, join with spaces. -/
def clean_segments (segs : List String) : String :=
  String.intercalate " " (clean_segments_aux segs none)

/-- The JSON body returned by the whisper `/transcribe` endpoint. -/
structure TranscribeResponse where
  transcript : String
  confidence : ℚ
  language : String
  message : Option String
deriving DecidableEq

/-- The `/transcribe` endpoint of services/whisper/main.py (lines 135-183),
after a successful inference: the response for segment texts `segs` and the
detected-language info. An empty cleaned transcript gets `confidence = 0.0`
and the canned no-speech message; otherwise the transcript is returned with
the language probability as confidence. -/
def transcribe_endpoint (segs : List String) (language_probability : ℚ)
    (language : String) : TranscribeResponse :=
  let t := clean_segments segs
  if t = "" then TranscribeResponse.mk "" 0 "en" (some no_speech_message)
  else TranscribeResponse.mk t language_probability language none

/-- Heap of Python list objects holding messages: a reference is an index
into the heap. Used to state the copy semantics of
`get_conversation_history`. -/
def heap_get (H : List (List Message)) (r : Nat) : List Message := H.getD r []

/-- Python `lst.copy()`: allocate a fresh list object with the same
elements, returning the new heap and the fresh reference. -/
def list_copy (H : List (List Message)) (r : Nat) : List (List Message) × Nat :=
  (H ++ [heap_get H r], H.length)

/-- `OllamaClient.get_conversation_history` (llm_client.py lines 218-220):
`return self.conversation_manager.conversation_history.copy()`. -/
def get_conversation_history (H : List (List Message)) (histRef : Nat) :
    List (List Message) × Nat :=
  list_copy H histRef

/-- Python `lst.clear()` on a heap reference. -/
def py_list_clear (H : List (List Message)) (r : Nat) : List (List Message) :=
  H.set r []

/-- Python `lst.append(x)` on a heap reference. -/
def py_list_append (H : List (List Message)) (r : Nat) (x : Message) :
    List (List Message) :=
  H.set r (heap_get H r ++ [x])

/-- C9: on an initialized engine, `speech_to_text` always returns normally;
a raising ASR backend yields the empty string, which makes a backend failure
indistinguishable from audio whose transcript strips to empty. -/
theorem speech_to_text_total :
    (∀ asr : Except Unit (Option String),
      ∃ t, speech_to_text true asr = Except.ok t ∧ (asr = Except.error () → t = "")) ∧
    speech_to_text true (Except.error ()) = speech_to_text true (Except.ok (some " ")) := by
  constructor
  · intro asr
    cases asr with
    | ok o => exact ⟨pyStrip (o.getD ""), rfl, fun hc => by cases hc⟩
    | error e => exact ⟨"", rfl, fun _ => rfl⟩
  · rfl

/-- Witness for C9 at a concrete raising backend. -/
theorem speech_to_text_total_witness :
    ∃ t, speech_to_text true (Except.error ()) = Except.ok t ∧
      ((Except.error () : Except Unit (Option String)) = Except.error () → t = "") :=
  speech_to_text_total.1 (Except.error ())

/-- C3 counterexample: with a transcriber returning a whitespace-only
transcript, the pipeline produces no reply at all — in particular not the
canned clarification reply — although the responder is indeed not called. -/
theorem empty_transcript_counterexample :
    (async_process_audio 5 true (Except.ok (some "   ")) (StreamOutcome.mk "x" false)
        (Except.ok none) "e1" "e2" "t1" "s1" "t2" "s2" (UIState.mk [] [])).reply ≠
      some canned_clarification ∧
    (async_process_audio 5 true (Except.ok (some "   ")) (StreamOutcome.mk "x" false)
        (Except.ok none) "e1" "e2" "t1" "s1" "t2" "s2" (UIState.mk [] [])).reply = none ∧
    (async_process_audio 5 true (Except.ok (some "   ")) (StreamOutcome.mk "x" false)
        (Except.ok none) "e1" "e2" "t1" "s1" "t2" "s2" (UIState.mk [] [])).responderCalled =
      false := by
  refine ⟨by decide, by decide, by decide⟩

/-- C3 amended: an empty or whitespace-only transcript never reaches the
responder, but the layers disagree on the reply: the full UI pipeline
short-circuits with no reply and no state change; `process_speech_input`
alone yields the fixed canned clarification without calling the LLM; and the
`confidence = 0.0` with a canned no-speech message exists only in the whisper
transcribe endpoint response. -/
theorem empty_transcript_policy :
    (∀ (m : Nat) (llm : StreamOutcome) (tts : Except Unit (Option (List Nat)))
        (e1 e2 t1 s1 t2 s2 : String) (st : UIState)
        (asr : Except Unit (Option String)) (u : String),
      speech_to_text true asr = Except.ok u → pyStrip u = "" →
      (async_process_audio m true asr llm tts e1 e2 t1 s1 t2 s2 st).responderCalled = false ∧
      (async_process_audio m true asr llm tts e1 e2 t1 s1 t2 s2 st).reply = none ∧
      (async_process_audio m true asr llm tts e1 e2 t1 s1 t2 s2 st).final = st ∧
      (async_process_audio m true asr llm tts e1 e2 t1 s1 t2 s2 st).played = []) ∧
    (∀ (m : Nat) (t1 s1 t2 s2 : String) (llm : StreamOutcome) (h : List Message)
        (u : String),
      pyStrip u = "" →
      process_speech_input m u t1 s1 t2 s2 llm h =
        GenResult.mk h canned_clarification false) ∧
    (∀ (segs : List String) (p : ℚ) (l : String),
      clean_segments segs = "" →
      (transcribe_endpoint segs p l).confidence = 0 ∧
      (transcribe_endpoint segs p l).message = some no_speech_message) := by
  refine ⟨?_, ?_, ?_⟩
  · intro m llm tts e1 e2 t1 s1 t2 s2 st asr u hasr hu
    unfold async_process_audio
    rw [hasr]
    simp [hu]
  · intro m t1 s1 t2 s2 llm h u hu
    unfold process_speech_input
    rw [if_pos hu]
  · intro segs p l hclean
    unfold transcribe_endpoint
    simp [hclean]

/-- Witness for C3 amended, at concrete empty inputs for each layer. -/
theorem empty_transcript_policy_witness :
    ((async_process_audio 5 true (Except.ok (some " ")) (StreamOutcome.mk "x" false)
        (Except.ok none) "e1" "e2" "t1" "s1" "t2" "s2"
        (UIState.mk [] [])).responderCalled = false ∧
      (async_process_audio 5 true (Except.ok (some " ")) (StreamOutcome.mk "x" false)
        (Except.ok none) "e1" "e2" "t1" "s1" "t2" "s2" (UIState.mk [] [])).reply = none ∧
      (async_process_audio 5 true (Except.ok (some " ")) (StreamOutcome.mk "x" false)
        (Except.ok none) "e1" "e2" "t1" "s1" "t2" "s2" (UIState.mk [] [])).final =
        UIState.mk [] [] ∧
      (async_process_audio 5 true (Except.ok (some " ")) (StreamOutcome.mk "x" false)
        (Except.ok none) "e1" "e2" "t1" "s1" "t2" "s2" (UIState.mk [] [])).played = []) ∧
    (process_speech_input 5 "" "t1" "s1" "t2" "s2" (StreamOutcome.mk "x" false) [] =
      GenResult.mk [] canned_clarification false) ∧
    ((transcribe_endpoint ["  "] (1/2) "en").confidence = 0 ∧
      (transcribe_endpoint ["  "] (1/2) "en").message = some no_speech_message) :=
  ⟨empty_transcript_policy.1 5 (StreamOutcome.mk "x" false) (Except.ok none)
      "e1" "e2" "t1" "s1" "t2" "s2" (UIState.mk [] []) (Except.ok (some " ")) ""
      rfl (by decide),
    empty_transcript_policy.2.1 5 "t1" "s1" "t2" "s2" (StreamOutcome.mk "x" false) [] ""
      (by decide),
    empty_transcript_policy.2.2 ["  "] (1/2) "en" (by decide)⟩

/-- C4: when transcription and generation succeed but the TTS backend raises,
the turn still completes: both conversation entries are appended, the reply
is the nonempty generated text, no audio is played, and no exception escapes
the pipeline. -/
theorem tts_failure_degrades_to_text (m : Nat) (e1 e2 t1 s1 t2 s2 : String)
    (st : UIState) (asr : Except Unit (Option String)) (u r : String)
    (hasr : speech_to_text true asr = Except.ok u)
    (hu : pyStrip u ≠ "") (hr : pyStrip r ≠ "") :
    (async_process_audio m true asr (StreamOutcome.mk r false) (Except.error ())
        e1 e2 t1 s1 t2 s2 st).reply = some (pyStrip r) ∧
    (async_process_audio m true asr (StreamOutcome.mk r false) (Except.error ())
        e1 e2 t1 s1 t2 s2 st).played = [] ∧
    (async_process_audio m true asr (StreamOutcome.mk r false) (Except.error ())
        e1 e2 t1 s1 t2 s2 st).raised = false ∧
    (async_process_audio m true asr (StreamOutcome.mk r false) (Except.error ())
        e1 e2 t1 s1 t2 s2 st).final.conversation_log =
      st.conversation_log ++ [Entry.mk "user" u e1, Entry.mk "assistant" (pyStrip r) e2] := by
  unfold async_process_audio
  rw [hasr]
  simp [process_speech_input, generate_response, stream_request, text_to_speech, hu, hr]

/-- Witness for C4 at a concrete transcript and reply. -/
theorem tts_failure_degrades_to_text_witness :
    (async_process_audio 5 true (Except.ok (some "Hello")) (StreamOutcome.mk "Hi!" false)
        (Except.error ()) "e1" "e2" "t1" "s1" "t2" "s2"
        (UIState.mk [] [])).reply = some (pyStrip "Hi!") ∧
    (async_process_audio 5 true (Except.ok (some "Hello")) (StreamOutcome.mk "Hi!" false)
        (Except.error ()) "e1" "e2" "t1" "s1" "t2" "s2" (UIState.mk [] [])).played = [] ∧
    (async_process_audio 5 true (Except.ok (some "Hello")) (StreamOutcome.mk "Hi!" false)
        (Except.error ()) "e1" "e2" "t1" "s1" "t2" "s2" (UIState.mk [] [])).raised = false ∧
    (async_process_audio 5 true (Except.ok (some "Hello")) (StreamOutcome.mk "Hi!" false)
        (Except.error ()) "e1" "e2" "t1" "s1" "t2" "s2"
        (UIState.mk [] [])).final.conversation_log =
      (UIState.mk [] [] : UIState).conversation_log ++
        [Entry.mk "user" "Hello" "e1", Entry.mk "assistant" (pyStrip "Hi!") "e2"] :=
  tts_failure_degrades_to_text 5 "e1" "e2" "t1" "s1" "t2" "s2" (UIState.mk [] [])
    (Except.ok (some "Hello")) "Hello" "Hi!" rfl (by decide) (by decide)

/-- C5 counterexample: a responder transport failure after the transcript
"Hello" does not abort the turn — the pipeline returns normally with the
canned fallback reply — and a transcriber transport failure is silently
converted into a skipped turn; neither surfaces as a raised error. -/
theorem stage_failure_counterexample :
    (async_process_audio 5 true (Except.ok (some "Hello")) (StreamOutcome.mk "" true)
        (Except.ok (some [1, 2])) "e1" "e2" "t1" "s1" "t2" "s2"
        (UIState.mk [] [])).raised = false ∧
    (async_process_audio 5 true (Except.ok (some "Hello")) (StreamOutcome.mk "" true)
        (Except.ok (some [1, 2])) "e1" "e2" "t1" "s1" "t2" "s2"
        (UIState.mk [] [])).reply = some fallback_reply ∧
    (async_process_audio 5 true (Except.error ()) (StreamOutcome.mk "" true)
        (Except.ok (some [1, 2])) "e1" "e2" "t1" "s1" "t2" "s2"
        (UIState.mk [] [])).raised = false ∧
    (async_process_audio 5 true (Except.error ()) (StreamOutcome.mk "" true)
        (Except.ok (some [1, 2])) "e1" "e2" "t1" "s1" "t2" "s2"
        (UIState.mk [] [])).reply = none := by
  refine ⟨by decide, by decide, by decide, by decide⟩

/-- C5 amended: stage 1 and stage 2 failures are swallowed, not raised: a
transcriber transport failure becomes an empty transcript and the turn is
skipped with no reply and no state change; a responder failure becomes the
canned fallback reply returned (and spoken) as a normal result, with the user
turn kept in the conversation history. No typed error reaches the caller. -/
theorem stage_failure_policy :
    (∀ (m : Nat) (llm : StreamOutcome) (tts : Except Unit (Option (List Nat)))
        (e1 e2 t1 s1 t2 s2 : String) (st : UIState),
      (async_process_audio m true (Except.error ()) llm tts e1 e2 t1 s1 t2 s2 st).raised =
        false ∧
      (async_process_audio m true (Except.error ()) llm tts e1 e2 t1 s1 t2 s2 st).reply =
        none ∧
      (async_process_audio m true (Except.error ()) llm tts e1 e2 t1 s1 t2 s2 st).final =
        st ∧
      (async_process_audio m true (Except.error ()) llm tts e1 e2 t1 s1 t2 s2
        st).responderCalled = false) ∧
    (∀ (m : Nat) (tts : Except Unit (Option (List Nat)))
        (e1 e2 t1 s1 t2 s2 : String) (st : UIState)
        (asr : Except Unit (Option String)) (u : String),
      speech_to_text true asr = Except.ok u → pyStrip u ≠ "" →
      (async_process_audio m true asr (StreamOutcome.mk "" true) tts e1 e2 t1 s1 t2 s2
        st).raised = false ∧
      (async_process_audio m true asr (StreamOutcome.mk "" true) tts e1 e2 t1 s1 t2 s2
        st).reply = some fallback_reply ∧
      (async_process_audio m true asr (StreamOutcome.mk "" true) tts e1 e2 t1 s1 t2 s2
        st).final.conversation_history =
        add_message m "user" u t1 s1 st.conversation_history) := by
  constructor
  · intro m llm tts e1 e2 t1 s1 t2 s2 st
    have h0 : pyStrip "" = "" := rfl
    unfold async_process_audio speech_to_text
    simp [h0]
  · intro m tts e1 e2 t1 s1 t2 s2 st asr u hasr hu
    have hstrip : pyStrip ("" ++ fallback_reply) = fallback_reply := by decide
    have hstrip2 : pyStrip fallback_reply = fallback_reply := by decide
    have hfb : fallback_reply ≠ "" := by decide
    unfold async_process_audio
    rw [hasr]
    cases tts with
    | ok o =>
        cases o with
        | none =>
            simp [process_speech_input, generate_response, stream_request,
              text_to_speech, hu, hstrip, hstrip2, hfb]
        | some wav =>
            simp [process_speech_input, generate_response, stream_request,
              text_to_speech, hu, hstrip, hstrip2, hfb]
    | error e =>
        simp [process_speech_input, generate_response, stream_request,
          text_to_speech, hu, hstrip, hstrip2, hfb]

/-- Witness for C5 amended, at a concrete transcript and a failing responder. -/
theorem stage_failure_policy_witness :
    ((async_process_audio 5 true (Except.error ()) (StreamOutcome.mk "x" false)
        (Except.ok none) "e1" "e2" "t1" "s1" "t2" "s2" (UIState.mk [] [])).raised =
        false ∧
      (async_process_audio 5 true (Except.error ()) (StreamOutcome.mk "x" false)
        (Except.ok none) "e1" "e2" "t1" "s1" "t2" "s2" (UIState.mk [] [])).reply = none ∧
      (async_process_audio 5 true (Except.error ()) (StreamOutcome.mk "x" false)
        (Except.ok none) "e1" "e2" "t1" "s1" "t2" "s2" (UIState.mk [] [])).final =
        UIState.mk [] [] ∧
      (async_process_audio 5 true (Except.error ()) (StreamOutcome.mk "x" false)
        (Except.ok none) "e1" "e2" "t1" "s1" "t2" "s2"
        (UIState.mk [] [])).responderCalled = false) ∧
    ((async_process_audio 5 true (Except.ok (some "Hello")) (StreamOutcome.mk "" true)
        (Except.ok none) "e1" "e2" "t1" "s1" "t2" "s2" (UIState.mk [] [])).raised =
        false ∧
      (async_process_audio 5 true (Except.ok (some "Hello")) (StreamOutcome.mk "" true)
        (Except.ok none) "e1" "e2" "t1" "s1" "t2" "s2" (UIState.mk [] [])).reply =
        some fallback_reply ∧
      (async_process_audio 5 true (Except.ok (some "Hello")) (StreamOutcome.mk "" true)
        (Except.ok none) "e1" "e2" "t1" "s1" "t2" "s2"
        (UIState.mk [] [])).final.conversation_history =
        add_message 5 "user" "Hello" "t1" "s1" (UIState.mk [] [] : UIState).conversation_history) :=
  ⟨stage_failure_policy.1 5 (StreamOutcome.mk "x" false) (Except.ok none)
      "e1" "e2" "t1" "s1" "t2" "s2" (UIState.mk [] []),
    stage_failure_policy.2 5 (Except.ok none) "e1" "e2" "t1" "s1" "t2" "s2"
      (UIState.mk [] []) (Except.ok (some "Hello")) "Hello" rfl (by decide)⟩

/-- C7 amended: when the streaming request fails after the user input "Hello"
was appended and the conversation was below capacity, the conversation
history afterwards is exactly the old history plus one user turn "Hello" —
no assistant turn is appended, the user turn is not rolled back, and the
caller receives the fallback text; when the history is at capacity the append
additionally triggers the trim, which inserts a synthetic assistant summary
turn (see the counterexample). -/
theorem responder_failure_keeps_user_turn (m : Nat) (h : List Message)
    (tsU tsUTrim tsA tsATrim streamed : String) (hlen : h.length < m * 2) :
    (generate_response m "Hello" tsU tsUTrim tsA tsATrim (StreamOutcome.mk streamed true)
        h).history = h ++ [Message.mk "user" "Hello" tsU] ∧
    (generate_response m "Hello" tsU tsUTrim tsA tsATrim (StreamOutcome.mk streamed true)
        h).yielded = streamed ++ fallback_reply := by
  have hadd : add_message m "user" "Hello" tsU tsUTrim h =
      h ++ [Message.mk "user" "Hello" tsU] := by
    unfold add_message
    rw [if_neg (by simp only [List.length_append, List.length_cons, List.length_nil]; omega)]
  unfold generate_response stream_request
  simp [hadd]

/-- Witness for C7 amended at an empty starting history. -/
theorem responder_failure_keeps_user_turn_witness :
    (generate_response 5 "Hello" "t1" "s1" "t2" "s2" (StreamOutcome.mk "" true)
        []).history = [] ++ [Message.mk "user" "Hello" "t1"] ∧
    (generate_response 5 "Hello" "t1" "s1" "t2" "s2" (StreamOutcome.mk "" true)
        []).yielded = "" ++ fallback_reply :=
  responder_failure_keeps_user_turn 5 [] "t1" "s1" "t2" "s2" "" (by decide)

/-- C7 counterexample: from a history already at capacity (`max_rounds = 1`,
two stored messages), a responder failure after the transcript "Hello" leaves
a history that is not the old one plus a single user turn: the triggered trim
replaced the old messages with a new synthetic assistant summary turn. -/
theorem responder_failure_counterexample :
    (generate_response 1 "Hello" "t3" "s3" "t4" "s4" (StreamOutcome.mk "" true)
        [Message.mk "user" "a" "t1", Message.mk "assistant" "b" "t2"]).history =
      [Message.mk "assistant" "Previous conversation summary:\nuser: a...\nassistant: b...\n" "s3",
        Message.mk "user" "Hello" "t3"] ∧
    (generate_response 1 "Hello" "t3" "s3" "t4" "s4" (StreamOutcome.mk "" true)
        [Message.mk "user" "a" "t1", Message.mk "assistant" "b" "t2"]).history ≠
      [Message.mk "user" "a" "t1", Message.mk "assistant" "b" "t2"] ++
        [Message.mk "user" "Hello" "t3"] := by
  refine ⟨by decide, by decide⟩

/-- C10: `get_conversation_history` returns a freshly allocated copy of the
stored history: the copy has the same elements, is a different object, and
clearing or appending to the copy leaves the stored history untouched. -/
theorem get_conversation_history_returns_copy (H : List (List Message))
    (histRef : Nat) (x : Message) (hr : histRef < H.length) :
    heap_get (get_conversation_history H histRef).1
      (get_conversation_history H histRef).2 = heap_get H histRef ∧
    (get_conversation_history H histRef).2 ≠ histRef ∧
    heap_get (py_list_clear (get_conversation_history H histRef).1
      (get_conversation_history H histRef).2) histRef = heap_get H histRef ∧
    heap_get (py_list_append (get_conversation_history H histRef).1
      (get_conversation_history H histRef).2 x) histRef = heap_get H histRef := by
  have hne : H.length ≠ histRef := by omega
  refine ⟨?_, hne, ?_, ?_⟩
  · unfold get_conversation_history list_copy heap_get
    simp only [List.getD_eq_getElem?_getD, List.getElem?_concat_length]
    rfl
  · unfold get_conversation_history list_copy py_list_clear heap_get
    simp only [List.getD_eq_getElem?_getD, List.getElem?_set_ne hne,
      List.getElem?_append_left hr]
  · unfold get_conversation_history list_copy py_list_append heap_get
    simp only [List.getD_eq_getElem?_getD, List.getElem?_set_ne hne,
      List.getElem?_append_left hr]

/-- Witness for C10 at a concrete one-object heap. -/
theorem get_conversation_history_returns_copy_witness :
    heap_get (get_conversation_history [[Message.mk "user" "Hello" "t1"]] 0).1
      (get_conversation_history [[Message.mk "user" "Hello" "t1"]] 0).2 =
      heap_get [[Message.mk "user" "Hello" "t1"]] 0 ∧
    (get_conversation_history [[Message.mk "user" "Hello" "t1"]] 0).2 ≠ 0 ∧
    heap_get (py_list_clear (get_conversation_history [[Message.mk "user" "Hello" "t1"]] 0).1
      (get_conversation_history [[Message.mk "user" "Hello" "t1"]] 0).2) 0 =
      heap_get [[Message.mk "user" "Hello" "t1"]] 0 ∧
    heap_get (py_list_append (get_conversation_history [[Message.mk "user" "Hello" "t1"]] 0).1
      (get_conversation_history [[Message.mk "user" "Hello" "t1"]] 0).2
      (Message.mk "user" "x" "t2")) 0 =
      heap_get [[Message.mk "user" "Hello" "t1"]] 0 :=
  get_conversation_history_returns_copy [[Message.mk "user" "Hello" "t1"]] 0
    (Message.mk "user" "x" "t2") (by decide)

end AICommApp
